import Mathlib

set_option autoImplicit false

/-!
Verification of the Ms. Pacman memory-patch rule engine from
`src/hackatari/games/mspacman.py`.

Emulator RAM is modelled as a total map from cell index to byte value
(`Mem`), and each rule of the source file as a pure function on `Mem`
(stateful rules additionally thread the module-level state explicitly).
All byte values are `Nat`; the Python integer arithmetic in the
power-pill window comparison is signed, so that comparison is carried
out over `Int`.
-/

/-- Emulator memory: cell index to byte value. -/
abbrev Mem : Type := Nat → Nat

/-- `env.set_ram(cell, v)`: point update of one memory cell. -/
def set_ram (m : Mem) (cell v : Nat) : Mem :=
  fun j => if j = cell then v else m j

/-- `make_edible(env, ghost_number, x_pos, ram_x, y_pos, ram_y)` in the
source: sets the ghost status cell to 130 and overwrites the x/y
position cells. -/
def make_edible (m : Mem) (ghost_number x_pos ram_x y_pos ram_y : Nat) : Mem :=
  set_ram (set_ram (set_ram m ghost_number 130) ram_x x_pos) ram_y y_pos

/-- `set_start_condition(self)`: all four ghosts edible at their spawn
coordinates, timer maxed to 255. -/
def set_start_condition (m : Mem) : Mem :=
  set_ram
    (make_edible (make_edible (make_edible (make_edible m
      1 120 6 50 12) 2 100 7 50 13) 3 80 8 50 14) 4 60 9 50 15)
    116 255

/-- `inverted_power_pill(self)`: the source loop
`i = 1; while i < 5: self.set_ram(i, 0); i += 1` (unrolled: it writes 0
to the status cells 1,2,3,4), then sets the timer cell 116 to 62. -/
def inverted_power_pill (m : Mem) : Mem :=
  set_ram (set_ram (set_ram (set_ram (set_ram m 1 0) 2 0) 3 0) 4 0) 116 62

/-- `power_pill_is_done(self)`: the source loop
`i = 1; while i < 5: self.set_ram(i, 130); i += 1` (unrolled: it writes
130 to the status cells 1,2,3,4), then sets the timer cell 116 to 190. -/
def power_pill_is_done (m : Mem) : Mem :=
  set_ram (set_ram (set_ram (set_ram (set_ram m 1 130) 2 130) 3 130) 4 130) 116 190

/-- The loop `i = i0; while i < 5: self.set_ram(i, v); i += 1` shared by
`inverted_power_pill` and `power_pill_is_done`, modelled directly as
recursion on the loop guard; Lean accepts it as terminating on the
measure `5 - i`. -/
def set_ghosts_while (v : Nat) (i : Nat) (m : Mem) : Mem :=
  if i < 5 then set_ghosts_while v (i + 1) (set_ram m i v) else m
termination_by 5 - i
decreasing_by simp_wf; omega

/-- The module-level toggles `TOGGLE_ORANGE`, `TOGGLE_CYAN`,
`TOGGLE_PINK`, `TOGGLE_RED` and the option `NUMBER_POWER_PILLS`. -/
structure Globals where
  toggle_orange : Bool
  toggle_cyan : Bool
  toggle_pink : Bool
  toggle_red : Bool
  number_power_pills : Nat
deriving DecidableEq

/-- Initial module state: all toggles 0, `NUMBER_POWER_PILLS = 4`. -/
def init_globals : Globals :=
  { toggle_orange := false, toggle_cyan := false, toggle_pink := false
    toggle_red := false, number_power_pills := 4 }

/-- `static_ghosts(self)`: for each enabled toggle, pins the ghost's x
and y position cells to its home-square coordinates. -/
def static_ghosts (g : Globals) (m : Mem) : Mem :=
  let m1 := if g.toggle_orange then set_ram (set_ram m 6 93) 12 80 else m
  let m2 := if g.toggle_cyan then set_ram (set_ram m1 7 83) 13 80 else m1
  let m3 := if g.toggle_pink then set_ram (set_ram m2 8 93) 14 67 else m2
  if g.toggle_red then set_ram (set_ram m3 9 83) 15 67 else m3

/-- `number_power_pills(self)`: lookup table from the configured count
`NUMBER_POWER_PILLS` to the triple written to cells 62, 95, 117; any
other count (in particular the default 4) writes nothing. -/
def number_power_pills (n : Nat) (m : Mem) : Mem :=
  if n = 0 then set_ram (set_ram (set_ram m 62 80) 95 80) 117 0
  else if n = 1 then set_ram (set_ram (set_ram m 62 64) 95 80) 117 8
  else if n = 2 then set_ram (set_ram (set_ram m 62 0) 95 80) 117 40
  else if n = 3 then set_ram (set_ram (set_ram m 62 0) 95 64) 117 46
  else m

/-- `edible_ghosts(self)`: reads timer and the four ghost status cells
up front; bumps the timer to 255 when it is below 250; respawns (via
`make_edible`) each ghost whose status cell read 112. -/
def edible_ghosts (m : Mem) : Mem :=
  let current_timer := m 116
  let current_orange := m 1
  let current_cyan := m 2
  let current_pink := m 3
  let current_red := m 4
  let m1 := if current_timer < 250 then set_ram m 116 255 else m
  let m2 := if current_orange = 112 then make_edible m1 1 120 6 50 12 else m1
  let m3 := if current_cyan = 112 then make_edible m2 2 100 7 50 13 else m2
  let m4 := if current_pink = 112 then make_edible m3 3 80 8 50 14 else m3
  if current_red = 112 then make_edible m4 4 60 9 50 15 else m4

/-- The module-level state of the inverted-mode hack:
`LAST_PP_STATUS` and `IS_INVERTED`. -/
structure InvState where
  last_pp : Nat
  is_inverted : Bool

/-- `inverted_ms_pacman_reset(self)`: re-applies the start condition and
resets the state machine to baseline 63, not inverted. -/
def inverted_ms_pacman_reset (m : Mem) : InvState × Mem :=
  ({ last_pp := 63, is_inverted := false }, set_start_condition m)

/-- `inverted_ms_pacman(self)`: one per-frame step of the inverted-mode
state machine. All RAM reads happen up front, as in the source. The
power-pill check is the Python chained comparison
`not (LAST_PP_STATUS - 3 < current_pp_status < LAST_PP_STATUS + 3)`
over signed integers; when it fires, `IS_INVERTED` becomes true,
`inverted_power_pill` runs and the baseline is updated. When the timer
read 0, `IS_INVERTED` becomes false and `power_pill_is_done` runs. The
four respawn checks then use the updated `IS_INVERTED`. -/
def inverted_ms_pacman (s : InvState) (m : Mem) : InvState × Mem :=
  let current_pp_status := m 117
  let current_timer := m 116
  let current_orange := m 1
  let current_cyan := m 2
  let current_pink := m 3
  let current_red := m 4
  let m1 := if current_timer < 250 ∧ s.is_inverted = false then set_ram m 116 255 else m
  let pp_fired : Bool :=
    !((s.last_pp : Int) - 3 < (current_pp_status : Int) ∧
      (current_pp_status : Int) < (s.last_pp : Int) + 3)
  let inv1 := if pp_fired then true else s.is_inverted
  let last1 := if pp_fired then current_pp_status else s.last_pp
  let m2 := if pp_fired then inverted_power_pill m1 else m1
  let inv2 := if current_timer = 0 then false else inv1
  let m3 := if current_timer = 0 then power_pill_is_done m2 else m2
  let m4 := if current_orange = 112 ∧ inv2 = false then make_edible m3 1 120 6 50 12 else m3
  let m5 := if current_cyan = 112 ∧ inv2 = false then make_edible m4 2 100 7 50 13 else m4
  let m6 := if current_pink = 112 ∧ inv2 = false then make_edible m5 3 80 8 50 14 else m5
  let m7 := if current_red = 112 ∧ inv2 = false then make_edible m6 4 60 9 50 15 else m6
  ({ last_pp := last1, is_inverted := inv2 }, m7)

/-- Tags for the per-step callbacks `modif_funcs` can register. -/
inductive StepMod where
  | static_ghosts
  | edible_ghosts
  | inverted_ms_pacman
deriving DecidableEq

/-- Tags for the per-reset callbacks `modif_funcs` can register. -/
inductive ResetMod where
  | number_power_pills
  | inverted_ms_pacman_reset
deriving DecidableEq

/-- Python `int(mod[-1])` restricted to success on a decimal digit:
takes the last character of the string; a digit parses to its value,
anything else (or an empty string) is an error. -/
def py_int_of_last_char (s : String) : Option Nat :=
  match s.data.getLast? with
  | none => none
  | some c => if c.isDigit then some (c.toNat - 48) else none

/-- The branch condition `mod == edible_ghosts` of the source compares a
string to a function object; in Python that equality is always `False`. -/
def str_eq_fun_obj (_ : String) : Bool := false

/-- The loop body of `modif_funcs(modifs)`: folds over the requested
modification names, threading the module globals and accumulating the
step and reset callback lists in registration order; an invalid
power-pill count aborts with an error, any unrecognised name falls
through to the next iteration. -/
def modif_funcs_go : List String → Globals → List StepMod → List ResetMod →
    Except String (Globals × List StepMod × List ResetMod)
  | [], g, steps, resets => .ok (g, steps, resets)
  | mod :: rest, g, steps, resets =>
    if mod = "caged_ghosts" then
      modif_funcs_go rest
        { g with toggle_cyan := true, toggle_orange := true
                 toggle_red := true, toggle_pink := true }
        (steps ++ [.static_ghosts]) resets
    else if mod = "disable_orange" then
      modif_funcs_go rest { g with toggle_orange := true } (steps ++ [.static_ghosts]) resets
    else if mod = "disable_red" then
      modif_funcs_go rest { g with toggle_red := true } (steps ++ [.static_ghosts]) resets
    else if mod = "disable_cyan" then
      modif_funcs_go rest { g with toggle_cyan := true } (steps ++ [.static_ghosts]) resets
    else if mod = "disable_pink" then
      modif_funcs_go rest { g with toggle_pink := true } (steps ++ [.static_ghosts]) resets
    else if "power".data.isPrefixOf mod.data then
      match py_int_of_last_char mod with
      | none => .error "invalid literal for int"
      | some mod_n =>
        if mod_n < 0 ∨ mod_n > 4 then .error "Invalid Number of Power Pills"
        else
          modif_funcs_go rest { g with number_power_pills := mod_n }
            steps (resets ++ [.number_power_pills])
    else if str_eq_fun_obj mod then
      modif_funcs_go rest g (steps ++ [.edible_ghosts]) resets
    else if mod = "inverted" then
      modif_funcs_go rest g
        (steps ++ [.inverted_ms_pacman]) (resets ++ [.inverted_ms_pacman_reset])
    else
      modif_funcs_go rest g steps resets

/-- `modif_funcs(modifs)`: builds the two callback lists from the
requested modification names, starting from empty lists. -/
def modif_funcs (modifs : List String) (g : Globals) :
    Except String (Globals × List StepMod × List ResetMod) :=
  modif_funcs_go modifs g [] []

/-- All cells of a memory state hold byte values. -/
def MemWF (m : Mem) : Prop := ∀ j, m j ≤ 255

/-- Concrete memory for the inverted-mode scenario: timer cell 116 at
255, power-pill marker cell 117 at 10, all other cells 0. -/
def mem_scenario : Mem :=
  fun j => if j = 116 then 255 else if j = 117 then 10 else 0

/-- Concrete memory with every cell 0. -/
def mem_zero : Mem := fun _ => 0

/-- Concrete memory for the tolerance counterexample: timer cell 116 at
255, power-pill marker cell 117 at 60, all other cells 5. -/
def mem_tol : Mem :=
  fun j => if j = 116 then 255 else if j = 117 then 60 else 5

/-- Concrete memory in which all four ghost status cells 1-4 hold the
consumed sentinel 112 and all other cells are 0. -/
def mem_eaten : Mem := fun j => if 1 ≤ j ∧ j ≤ 4 then 112 else 0

/-- Claim C7: token-count lookup totality. For each configured count N in
{0,1,2,3} one invocation of `number_power_pills` writes exactly its fixed
triple of byte values to the three cells 62, 95, 117 (and touches no other
cell), and for N = 4 it leaves all memory unchanged. -/
theorem c7_token_count_lookup (m : Mem) (n j : Nat)
    (h62 : j ≠ 62) (h95 : j ≠ 95) (h117 : j ≠ 117) :
    (number_power_pills 0 m 62 = 80 ∧ number_power_pills 0 m 95 = 80 ∧
      number_power_pills 0 m 117 = 0) ∧
    (number_power_pills 1 m 62 = 64 ∧ number_power_pills 1 m 95 = 80 ∧
      number_power_pills 1 m 117 = 8) ∧
    (number_power_pills 2 m 62 = 0 ∧ number_power_pills 2 m 95 = 80 ∧
      number_power_pills 2 m 117 = 40) ∧
    (number_power_pills 3 m 62 = 0 ∧ number_power_pills 3 m 95 = 64 ∧
      number_power_pills 3 m 117 = 46) ∧
    number_power_pills 4 m = m ∧
    number_power_pills n m j = m j := by
  refine ⟨⟨rfl, rfl, rfl⟩, ⟨rfl, rfl, rfl⟩, ⟨rfl, rfl, rfl⟩, ⟨rfl, rfl, rfl⟩, rfl, ?_⟩
  unfold number_power_pills
  split_ifs <;> simp [set_ram, h62, h95, h117]

/-- Claim C5: timer floor of the Always-Edible Rule. If the countdown
timer cell 116 holds a value strictly below 250 before one `edible_ghosts`
step, it equals 255 afterwards; if it holds 250 or more, the step leaves
it unchanged. -/
theorem c5_timer_floor (m : Mem) :
    (m 116 < 250 → edible_ghosts m 116 = 255) ∧
    (250 ≤ m 116 → edible_ghosts m 116 = m 116) := by
  unfold edible_ghosts make_edible
  constructor <;> intro h <;> split_ifs <;> simp_all [set_ram] <;> omega

/-- Claim C6: edibility respawn invariant of the Always-Edible Rule. Each
ghost whose status cell (1-4) read the consumed sentinel 112 has, after
one `edible_ghosts` step, status 130 and its designated spawn coordinates
in its x cell (6-9) and y cell (12-15). -/
theorem c6_respawn (m : Mem) :
    (m 1 = 112 → edible_ghosts m 1 = 130 ∧ edible_ghosts m 6 = 120 ∧
      edible_ghosts m 12 = 50) ∧
    (m 2 = 112 → edible_ghosts m 2 = 130 ∧ edible_ghosts m 7 = 100 ∧
      edible_ghosts m 13 = 50) ∧
    (m 3 = 112 → edible_ghosts m 3 = 130 ∧ edible_ghosts m 8 = 80 ∧
      edible_ghosts m 14 = 50) ∧
    (m 4 = 112 → edible_ghosts m 4 = 130 ∧ edible_ghosts m 9 = 60 ∧
      edible_ghosts m 15 = 50) := by
  refine ⟨fun h => ?_, fun h => ?_, fun h => ?_, fun h => ?_⟩ <;>
    refine ⟨?_, ?_, ?_⟩ <;>
    unfold edible_ghosts make_edible <;>
    split_ifs <;> simp_all [set_ram]

/-- Claim C8: idempotence of the Static-Entity Suppression Rule. For
every memory state and every setting of the four toggles, invoking
`static_ghosts` twice yields exactly the memory of invoking it once. -/
theorem c8_static_ghosts_idempotent (g : Globals) (m : Mem) :
    static_ghosts g (static_ghosts g m) = static_ghosts g m := by
  funext j
  rcases g with ⟨o, c, p, r⟩
  cases o <;> cases c <;> cases p <;> cases r <;>
    simp [static_ghosts, set_ram] <;> split_ifs <;> simp_all

/-- Claim C4: inverted-mode transition scenario. From NORMAL with
baseline 63 and timer 255, a step observing marker 10 yields INVERTED,
ghost status cells 0, timer 62 and baseline 10; a subsequent step
observing timer 0 (marker still within the window of 10) yields NORMAL,
ghost status cells 130 and timer 190. -/
theorem c4_inverted_scenario :
    (inverted_ms_pacman ⟨63, false⟩ mem_scenario).1.is_inverted = true ∧
    (inverted_ms_pacman ⟨63, false⟩ mem_scenario).1.last_pp = 10 ∧
    (inverted_ms_pacman ⟨63, false⟩ mem_scenario).2 1 = 0 ∧
    (inverted_ms_pacman ⟨63, false⟩ mem_scenario).2 2 = 0 ∧
    (inverted_ms_pacman ⟨63, false⟩ mem_scenario).2 3 = 0 ∧
    (inverted_ms_pacman ⟨63, false⟩ mem_scenario).2 4 = 0 ∧
    (inverted_ms_pacman ⟨63, false⟩ mem_scenario).2 116 = 62 ∧
    (inverted_ms_pacman (inverted_ms_pacman ⟨63, false⟩ mem_scenario).1
      (set_ram (inverted_ms_pacman ⟨63, false⟩ mem_scenario).2 116 0)).1.is_inverted = false ∧
    (inverted_ms_pacman (inverted_ms_pacman ⟨63, false⟩ mem_scenario).1
      (set_ram (inverted_ms_pacman ⟨63, false⟩ mem_scenario).2 116 0)).1.last_pp = 10 ∧
    (inverted_ms_pacman (inverted_ms_pacman ⟨63, false⟩ mem_scenario).1
      (set_ram (inverted_ms_pacman ⟨63, false⟩ mem_scenario).2 116 0)).2 1 = 130 ∧
    (inverted_ms_pacman (inverted_ms_pacman ⟨63, false⟩ mem_scenario).1
      (set_ram (inverted_ms_pacman ⟨63, false⟩ mem_scenario).2 116 0)).2 2 = 130 ∧
    (inverted_ms_pacman (inverted_ms_pacman ⟨63, false⟩ mem_scenario).1
      (set_ram (inverted_ms_pacman ⟨63, false⟩ mem_scenario).2 116 0)).2 3 = 130 ∧
    (inverted_ms_pacman (inverted_ms_pacman ⟨63, false⟩ mem_scenario).1
      (set_ram (inverted_ms_pacman ⟨63, false⟩ mem_scenario).2 116 0)).2 4 = 130 ∧
    (inverted_ms_pacman (inverted_ms_pacman ⟨63, false⟩ mem_scenario).1
      (set_ram (inverted_ms_pacman ⟨63, false⟩ mem_scenario).2 116 0)).2 116 = 190 := by
  decide

/-- Claim C1 (counterexample): at marker reading 60 with baseline 63 the
distance is exactly 3 — inside the claimed tolerance — yet one step
transitions NORMAL to INVERTED, changes the baseline to 60, forces the
ghost status cells to 0 and the timer to 62, because the code's window
`last - 3 < current < last + 3` is strict. -/
theorem c1_counterexample :
    |(mem_tol 117 : Int) - ((63 : Nat) : Int)| ≤ 3 ∧
    (inverted_ms_pacman ⟨63, false⟩ mem_tol).1.is_inverted = true ∧
    (inverted_ms_pacman ⟨63, false⟩ mem_tol).1.last_pp = 60 ∧
    (inverted_ms_pacman ⟨63, false⟩ mem_tol).2 116 = 62 ∧
    (inverted_ms_pacman ⟨63, false⟩ mem_tol).2 1 = 0 ∧
    (inverted_ms_pacman ⟨63, false⟩ mem_tol).2 2 = 0 ∧
    (inverted_ms_pacman ⟨63, false⟩ mem_tol).2 3 = 0 ∧
    (inverted_ms_pacman ⟨63, false⟩ mem_tol).2 4 = 0 := by
  decide

set_option maxHeartbeats 1000000 in
/-- Claim C1 (amended): marker tolerance with the strict window of the
code. For every marker reading within distance 2 of the baseline, one
step of `inverted_ms_pacman` performs no NORMAL-to-INVERTED transition,
leaves the baseline unchanged, and forces neither a ghost status cell to
0 nor the timer to 62. -/
theorem c1_amended_marker_tolerance (s : InvState) (m : Mem)
    (hwin : |(m 117 : Int) - (s.last_pp : Int)| ≤ 2) :
    (inverted_ms_pacman s m).1.last_pp = s.last_pp ∧
    (s.is_inverted = false → (inverted_ms_pacman s m).1.is_inverted = false) ∧
    ((inverted_ms_pacman s m).2 1 = 0 → m 1 = 0) ∧
    ((inverted_ms_pacman s m).2 2 = 0 → m 2 = 0) ∧
    ((inverted_ms_pacman s m).2 3 = 0 → m 3 = 0) ∧
    ((inverted_ms_pacman s m).2 4 = 0 → m 4 = 0) ∧
    ((inverted_ms_pacman s m).2 116 = 62 → m 116 = 62) := by
  have hcond : (s.last_pp : Int) - 3 < (m 117 : Int) ∧
      (m 117 : Int) < (s.last_pp : Int) + 3 := by
    rw [abs_le] at hwin
    omega
  have hpp : (!decide ((s.last_pp : Int) - 3 < (m 117 : Int) ∧
      (m 117 : Int) < (s.last_pp : Int) + 3)) = false := by
    rw [decide_eq_true hcond]
    rfl
  simp only [inverted_ms_pacman]
  rw [hpp]
  simp only [Bool.false_eq_true, if_false]
  split_ifs <;>
    simp_all [set_ram, make_edible, inverted_power_pill, power_pill_is_done]

/-- Claim C3: configuration validation of the power-pill-count family.
Configuring with "power5" fails with the invalid-count error and returns
no callbacks, while "power2" succeeds, sets the configured count to 2 and
registers exactly the reset callback `number_power_pills`, whose
invocation at count 2 writes 0 to cell 62, 80 to cell 95 and 40 to
cell 117. -/
theorem c3_power_validation (g : Globals) (m : Mem) :
    modif_funcs ["power5"] g = .error "Invalid Number of Power Pills" ∧
    modif_funcs ["power2"] g =
      .ok ({ g with number_power_pills := 2 }, [], [.number_power_pills]) ∧
    number_power_pills 2 m 62 = 0 ∧
    number_power_pills 2 m 95 = 80 ∧
    number_power_pills 2 m 117 = 40 :=
  ⟨rfl, rfl, rfl, rfl, rfl⟩

/-- Claim C2: unknown-name tolerance of configuration. A modification
name that is none of the known names and not of the power family is
silently skipped by `modif_funcs` (it raises nothing, changes nothing and
contributes no callback), and configuring with just "nonexistent_mod"
yields two empty callback lists. -/
theorem c2_unknown_name_tolerance (name : String) (rest : List String) (g : Globals)
    (h1 : name ≠ "caged_ghosts") (h2 : name ≠ "disable_orange")
    (h3 : name ≠ "disable_red") (h4 : name ≠ "disable_cyan")
    (h5 : name ≠ "disable_pink")
    (h6 : "power".data.isPrefixOf name.data = false)
    (h7 : name ≠ "inverted") :
    modif_funcs (name :: rest) g = modif_funcs rest g ∧
    modif_funcs ["nonexistent_mod"] g = .ok (g, [], []) := by
  constructor
  · simp only [modif_funcs, modif_funcs_go, h1, h2, h3, h4, h5, h6, h7,
      str_eq_fun_obj, if_false, Bool.false_eq_true, ite_false]
  · rfl

/-- Witness for claim C2 at the concrete name "nonexistent_mod". -/
theorem c2_witness :
    ("nonexistent_mod" ≠ "caged_ghosts") ∧
    ("power".data.isPrefixOf "nonexistent_mod".data = false) ∧
    (modif_funcs ["nonexistent_mod"] init_globals = modif_funcs [] init_globals ∧
      modif_funcs ["nonexistent_mod"] init_globals = .ok (init_globals, [], [])) :=
  ⟨by decide, by decide,
    c2_unknown_name_tolerance "nonexistent_mod" [] init_globals (by decide) (by decide)
      (by decide) (by decide) (by decide) (by decide) (by decide)⟩

/-- Helper for claim C9: the accumulator of `modif_funcs_go` never gains
the `edible_ghosts` tag. -/
theorem c9_helper (mods : List String) :
    ∀ (g : Globals) (steps : List StepMod) (resets : List ResetMod)
      (out : Globals × List StepMod × List ResetMod),
      StepMod.edible_ghosts ∉ steps →
      modif_funcs_go mods g steps resets = .ok out →
      StepMod.edible_ghosts ∉ out.2.1 := by
  induction mods with
  | nil =>
    intro g steps resets out hs heq
    simp only [modif_funcs_go, Except.ok.injEq] at heq
    rw [← heq]
    exact hs
  | cons mod rest ih =>
    intro g steps resets out hs heq
    simp only [modif_funcs_go, str_eq_fun_obj, Bool.false_eq_true, if_false] at heq
    split_ifs at heq
    all_goals try exact ih _ _ _ _ (by simp [hs]) heq
    split at heq
    all_goals try exact Except.noConfusion heq
    split_ifs at heq
    all_goals exact ih _ _ _ _ (by simp [hs]) heq

/-- Claim C9: the registry branch comparing a modification name to the
`edible_ghosts` function object never matches, so the step-callback list
returned by a successful `modif_funcs` never contains the Always-Edible
Rule. -/
theorem c9_edible_ghosts_unreachable (mods : List String) (g : Globals)
    (out : Globals × List StepMod × List ResetMod)
    (h : modif_funcs mods g = .ok out) :
    StepMod.edible_ghosts ∉ out.2.1 :=
  c9_helper mods g [] [] out (by simp) h

/-- Witness for claim C9 on the concrete configuration ["caged_ghosts"]. -/
theorem c9_witness :
    modif_funcs ["caged_ghosts"] init_globals =
      .ok ({ toggle_orange := true, toggle_cyan := true, toggle_pink := true,
             toggle_red := true, number_power_pills := 4 },
           [StepMod.static_ghosts], []) ∧
    StepMod.edible_ghosts ∉ [StepMod.static_ghosts] :=
  ⟨rfl, c9_edible_ghosts_unreachable ["caged_ghosts"] init_globals _ rfl⟩

/-- Writing a byte value preserves byte-valued memory. -/
theorem set_ram_wf {m : Mem} (hm : MemWF m) {v : Nat} (hv : v ≤ 255) (c : Nat) :
    MemWF (set_ram m c v) := by
  intro j
  unfold set_ram
  split_ifs
  · exact hv
  · exact hm j

/-- A conditional between byte-valued memories is byte-valued. -/
theorem ite_wf {c : Prop} [Decidable c] {a b : Mem} (ha : MemWF a) (hb : MemWF b) :
    MemWF (if c then a else b) := by
  split_ifs <;> assumption

/-- `make_edible` preserves byte-valued memory when the coordinates are
byte values. -/
theorem make_edible_wf {m : Mem} (hm : MemWF m) (gn rx ry : Nat) {x y : Nat}
    (hx : x ≤ 255) (hy : y ≤ 255) : MemWF (make_edible m gn x rx y ry) :=
  set_ram_wf (set_ram_wf (set_ram_wf hm (by omega) gn) hx rx) hy ry

/-- Claim C10: per-frame rule totality. The ghost loop of the helper
rules terminates and computes the four status-cell writes, and each
per-frame step rule (`static_ghosts`, `edible_ghosts`,
`inverted_ms_pacman`) is a total function mapping byte-valued memory to
byte-valued memory, taking no error path. -/
theorem c10_totality (g : Globals) (s : InvState) (m : Mem) (hm : MemWF m) :
    (∀ v, set_ghosts_while v 1 m =
      set_ram (set_ram (set_ram (set_ram m 1 v) 2 v) 3 v) 4 v) ∧
    MemWF (static_ghosts g m) ∧
    MemWF (edible_ghosts m) ∧
    MemWF ((inverted_ms_pacman s m).2) := by
  refine ⟨fun v => by simp [set_ghosts_while], ?_, ?_, ?_⟩
  · unfold static_ghosts
    repeat' first
      | exact hm
      | apply ite_wf
      | apply set_ram_wf
      | omega
  · unfold edible_ghosts
    repeat' first
      | exact hm
      | apply ite_wf
      | apply make_edible_wf
      | apply set_ram_wf
      | omega
  · unfold inverted_ms_pacman inverted_power_pill power_pill_is_done
    repeat' first
      | exact hm
      | apply ite_wf
      | apply make_edible_wf
      | apply set_ram_wf
      | omega

/-- Witness for the amended claim C1 at baseline 0 and the all-zero
memory. -/
theorem c1_witness :
    |((mem_zero 117 : Nat) : Int) - (((0 : Nat) : Int))| ≤ 2 ∧
    ((inverted_ms_pacman ⟨0, false⟩ mem_zero).1.last_pp = 0 ∧
     ((false : Bool) = false →
       (inverted_ms_pacman ⟨0, false⟩ mem_zero).1.is_inverted = false) ∧
     ((inverted_ms_pacman ⟨0, false⟩ mem_zero).2 1 = 0 → mem_zero 1 = 0) ∧
     ((inverted_ms_pacman ⟨0, false⟩ mem_zero).2 2 = 0 → mem_zero 2 = 0) ∧
     ((inverted_ms_pacman ⟨0, false⟩ mem_zero).2 3 = 0 → mem_zero 3 = 0) ∧
     ((inverted_ms_pacman ⟨0, false⟩ mem_zero).2 4 = 0 → mem_zero 4 = 0) ∧
     ((inverted_ms_pacman ⟨0, false⟩ mem_zero).2 116 = 62 → mem_zero 116 = 62)) :=
  ⟨by decide, c1_amended_marker_tolerance ⟨0, false⟩ mem_zero (by decide)⟩

/-- Witness for claim C5 at two concrete memories, one on each side of
the 250 threshold. -/
theorem c5_witness :
    (mem_zero 116 < 250 ∧ edible_ghosts mem_zero 116 = 255) ∧
    (250 ≤ mem_scenario 116 ∧ edible_ghosts mem_scenario 116 = mem_scenario 116) :=
  ⟨⟨by decide, (c5_timer_floor mem_zero).1 (by decide)⟩,
   ⟨by decide, (c5_timer_floor mem_scenario).2 (by decide)⟩⟩

/-- Witness for claim C6 on the memory in which all four ghosts read the
consumed sentinel. -/
theorem c6_witness :
    (mem_eaten 1 = 112 ∧ (edible_ghosts mem_eaten 1 = 130 ∧
      edible_ghosts mem_eaten 6 = 120 ∧ edible_ghosts mem_eaten 12 = 50)) ∧
    (mem_eaten 2 = 112 ∧ (edible_ghosts mem_eaten 2 = 130 ∧
      edible_ghosts mem_eaten 7 = 100 ∧ edible_ghosts mem_eaten 13 = 50)) ∧
    (mem_eaten 3 = 112 ∧ (edible_ghosts mem_eaten 3 = 130 ∧
      edible_ghosts mem_eaten 8 = 80 ∧ edible_ghosts mem_eaten 14 = 50)) ∧
    (mem_eaten 4 = 112 ∧ (edible_ghosts mem_eaten 4 = 130 ∧
      edible_ghosts mem_eaten 9 = 60 ∧ edible_ghosts mem_eaten 15 = 50)) :=
  ⟨⟨by decide, (c6_respawn mem_eaten).1 (by decide)⟩,
   ⟨by decide, (c6_respawn mem_eaten).2.1 (by decide)⟩,
   ⟨by decide, (c6_respawn mem_eaten).2.2.1 (by decide)⟩,
   ⟨by decide, (c6_respawn mem_eaten).2.2.2 (by decide)⟩⟩

/-- Witness for claim C7 at cell 0 of the all-zero memory. -/
theorem c7_witness :
    ((0 : Nat) ≠ 62 ∧ (0 : Nat) ≠ 95 ∧ (0 : Nat) ≠ 117) ∧
    ((number_power_pills 0 mem_zero 62 = 80 ∧ number_power_pills 0 mem_zero 95 = 80 ∧
       number_power_pills 0 mem_zero 117 = 0) ∧
     (number_power_pills 1 mem_zero 62 = 64 ∧ number_power_pills 1 mem_zero 95 = 80 ∧
       number_power_pills 1 mem_zero 117 = 8) ∧
     (number_power_pills 2 mem_zero 62 = 0 ∧ number_power_pills 2 mem_zero 95 = 80 ∧
       number_power_pills 2 mem_zero 117 = 40) ∧
     (number_power_pills 3 mem_zero 62 = 0 ∧ number_power_pills 3 mem_zero 95 = 64 ∧
       number_power_pills 3 mem_zero 117 = 46) ∧
     number_power_pills 4 mem_zero = mem_zero ∧
     number_power_pills 4 mem_zero 0 = mem_zero 0) :=
  ⟨⟨by decide, by decide, by decide⟩,
   c7_token_count_lookup mem_zero 4 0 (by decide) (by decide) (by decide)⟩

/-- Witness for claim C10 on the all-zero memory. -/
theorem c10_witness :
    MemWF mem_zero ∧
    ((∀ v, set_ghosts_while v 1 mem_zero =
        set_ram (set_ram (set_ram (set_ram mem_zero 1 v) 2 v) 3 v) 4 v) ∧
     MemWF (static_ghosts init_globals mem_zero) ∧
     MemWF (edible_ghosts mem_zero) ∧
     MemWF ((inverted_ms_pacman ⟨63, false⟩ mem_zero).2)) :=
  ⟨fun _ => Nat.zero_le 255,
   c10_totality init_globals ⟨63, false⟩ mem_zero (fun _ => Nat.zero_le 255)⟩
